import Mathlib

/-!
# ThingsDB bridge module (`main.go`): connection lifecycle and request routing

A shallow embedding of `handleConf`, `onResponse` and `onModuleReq`.

* Go pointers that may be `nil` (`*string`, `*uint16`, `*bool`, `*thingsdb.Conn`)
  are `Option`s; dereferencing a `nil` pointer is a run-time panic, recorded in
  the `panicked` flag of the result.
* The package-level variable `conn` is the field `State.conn`.
* Everything a function does to the outside world (log lines, replies written
  with `timod`, calls on a `thingsdb.Conn`) is recorded, in order, in a trace of
  `Event`s.
* The backend client, the msgpack decoder and the constants of `timod` live
  outside this repository; they are parameters (`Backend`, `unmarshal`,
  `Timod`), so every theorem holds for arbitrary backend outcomes.
-/

namespace ThingsDBModule

/-- Byte strings (`[]byte`). -/
abbrev Bytes := List Nat

/-- A decoded msgpack value held in a Go `interface{}`; the module hands it on
without looking inside. -/
structure Value where
  raw : Bytes
  deriving DecidableEq

/-- The part of `tls.Config` that `handleConf` sets. -/
structure TlsConfig where
  InsecureSkipVerify : Bool
  deriving DecidableEq

/-- Entry of `config.Nodes` (`type nodes struct`). -/
structure nodes where
  Host : String
  Port : Option Nat
  deriving DecidableEq

/-- The decoded module configuration (`type config struct`). A `nil` slice and
an empty slice of nodes are both the empty list: the source only asks for
`len(cfg.Nodes) > 0`. -/
structure config where
  Username : Option String
  Password : Option String
  Token : Option String
  Host : String
  Port : Option Nat
  UseSSL : Option Bool
  SkipVerify : Option Bool
  Timeout : Option Nat
  Nodes : List nodes
  deriving DecidableEq

/-- The decoded request (`type request struct`). `Vars` is `none` for a `nil`
map, `Args` is `none` for a `nil` interface. -/
structure request where
  Scope : String
  Code : Option String
  Name : Option String
  Vars : Option (List (String × Value))
  Args : Option Value
  deriving DecidableEq

/-- What the module can observe of a `thingsdb.Conn`: the parameters it was
built with and whether `Connect`, an `Auth...` call and `Close` went through. -/
structure Conn where
  Host : String
  Port : Nat
  Tls : Option TlsConfig
  DefaultTimeout : Nat
  Nodes : List (String × Nat)
  connected : Bool
  authenticated : Bool
  closed : Bool
  deriving DecidableEq

/-- An `error` value returned by `QueryRaw` or `RunRaw`: either a
`*thingsdb.TiError` (with the results of its `Code()` and `Error()` methods) or
any other error (with the result of `Error()`). -/
inductive GoError where
  | ti (code : Int) (msg : String)
  | other (msg : String)
  deriving DecidableEq

/-- Package received from the host (`timod.Pkg`). -/
structure Pkg where
  Pid : Nat
  Tp : Nat
  Data : Bytes
  deriving DecidableEq

/-- Observable effects, in the order the code performs them. -/
inductive Event where
  | log (msg : String)
  | writeConfErr
  | writeConfOk
  | newConn (host : String) (port : Nat) (tls : Option TlsConfig)
  | addNode (host : String) (port : Nat)
  | connect (c : Conn)
  | authToken (c : Conn) (token : String)
  | authPassword (c : Conn) (user : String) (pass : String)
  | close (c : Conn)
  | queryRaw (c : Conn) (scope : String) (code : String) (vars : Option (List (String × Value)))
  | runRaw (c : Conn) (scope : String) (name : String) (args : Option Value)
  | writeEx (pid : Nat) (kind : Int) (msg : String)
  | writeResponseRaw (pid : Nat) (data : Bytes)
  deriving DecidableEq

/-- The backend client as seen from the module: each call returns an arbitrary
outcome. `none` is a `nil` error. -/
structure Backend where
  Connect : Conn → Option String
  AuthToken : Conn → String → Option String
  AuthPassword : Conn → String → String → Option String
  QueryRaw : Conn → String → String → Option (List (String × Value)) → Bytes × Option GoError
  RunRaw : Conn → String → String → Option Value → Bytes × Option GoError

/-- The names of package `timod` used by the module whose declarations are not
in this repository: the two exception kinds and the bit width of the signed
integer type `timod.Ex`. -/
structure Timod where
  ExBadData : Int
  ExCancelled : Int
  exBits : Nat

/-- Go conversion of an integer to a signed integer type of `w` bits. -/
def toSigned (w : Nat) (c : Int) : Int :=
  (c + 2 ^ (w - 1)) % 2 ^ w - 2 ^ (w - 1)

/-- The conversion `timod.Ex(code)`. -/
def Timod.Ex (T : Timod) (code : Int) : Int :=
  toSigned T.exBits code

/-- Package-level state: `var conn *thingsdb.Conn`. -/
structure State where
  conn : Option Conn
  deriving DecidableEq

/-- The state at program start: `conn = nil`. -/
def State.init : State := ⟨none⟩

/-- Go `time.Second`, in nanoseconds. -/
def second : Nat := 1000000000

/-- Go `thingsdb.NewConn(host, port, tlsConfig)`: a connection that is neither
dialled, authenticated nor closed. Its default timeout is overwritten by the
caller right away. -/
def NewConn (host : String) (port : Nat) (tls : Option TlsConfig) : Conn :=
  { Host := host, Port := port, Tls := tls, DefaultTimeout := 0, Nodes := [],
    connected := false, authenticated := false, closed := false }

/-- Go `conn.AddNode(host, port)`. -/
def Conn.AddNode (c : Conn) (host : String) (port : Nat) : Conn :=
  { c with Nodes := c.Nodes ++ [(host, port)] }

/-- Go `conn.Close()`. -/
def Conn.Close (c : Conn) : Conn :=
  { c with closed := true }

/-- What a call of `handleConf` leaves behind. `created` is the final value of
the function's local variable `conn` (declared on line 105), `none` when that
line was not reached or the variable was set to `nil`. -/
structure ConfResult where
  state : State
  trace : List Event
  panicked : Bool
  created : Option Conn
  deriving DecidableEq

/-- Lines 73-81: the TLS configuration derived from `use_ssl` and
`skip_verify`. -/
def tlsOf (cfg : config) : Option TlsConfig :=
  if cfg.UseSSL = some true then
    some { InsecureSkipVerify := decide (cfg.SkipVerify = some true) }
  else none

/-- Lines 112-121: the loop over `cfg.Nodes`. For each node `port` starts as
9200; `if node.Port == nil { port = *node.Port }` dereferences the pointer
exactly when it is `nil`, which panics, and leaves 9200 otherwise. Returns the
connection, the events and whether the loop panicked. -/
def addNodes : List nodes → Conn → Conn × List Event × Bool
  | [], c => (c, [], false)
  | node :: rest, c =>
    match node.Port with
    | none => (c, [], true)
    | some _ =>
      let port : Nat := 9200
      let r := addNodes rest (c.AddNode node.Host port)
      (r.1, Event.addNode node.Host port :: r.2.1, r.2.2)

/-- Lines 123-148: dial and authenticate the local connection `c`. The
assignments `conn = nil` on the failure paths go to the local variable, so the
package-level state `s` is returned as it was. -/
def dialAndAuth (B : Backend) (cfg : config) (s : State) (c : Conn) : ConfResult :=
  match B.Connect c with
  | some err =>
    ⟨s, [Event.connect c, Event.log err, Event.writeConfErr], false, none⟩
  | none =>
    let c1 : Conn := { c with connected := true }
    match cfg.Token with
    | some token =>
      match B.AuthToken c1 token with
      | some err =>
        ⟨s, [Event.connect c, Event.authToken c1 token, Event.close c1, Event.log err,
             Event.writeConfErr], false, none⟩
      | none =>
        ⟨s, [Event.connect c, Event.authToken c1 token, Event.writeConfOk], false,
          some { c1 with authenticated := true }⟩
    | none =>
      match cfg.Username, cfg.Password with
      | some user, some pass =>
        match B.AuthPassword c1 user pass with
        | some err =>
          ⟨s, [Event.connect c, Event.authPassword c1 user pass, Event.close c1, Event.log err,
               Event.writeConfErr], false, none⟩
        | none =>
          ⟨s, [Event.connect c, Event.authPassword c1 user pass, Event.writeConfOk], false,
            some { c1 with authenticated := true }⟩
      | _, _ => ⟨s, [Event.connect c], true, some c1⟩

/-- Lines 101-148: the part of `handleConf` after credential validation. The
package-level connection is closed when there is one; `conn := thingsdb.NewConn`
then declares a local variable, and everything after it works on that local. -/
def reconnect (B : Backend) (cfg : config) (port : Nat) (s : State) : ConfResult :=
  let s1 : State := ⟨s.conn.map Conn.Close⟩
  let closeEv : List Event := match s.conn with
    | some old => [Event.close old]
    | none => []
  let tlsConfig := tlsOf cfg
  let c0 : Conn := { NewConn cfg.Host port tlsConfig with DefaultTimeout := 10 * second }
  let c1 : Conn := match cfg.Timeout with
    | some t => { c0 with DefaultTimeout := t * second }
    | none => c0
  let added := addNodes cfg.Nodes c1
  let head : List Event := closeEv ++ [Event.newConn cfg.Host port tlsConfig] ++ added.2.1
  if added.2.2 then
    ⟨s1, head, true, some added.1⟩
  else
    let r := dialAndAuth B cfg s1 added.1
    ⟨r.state, head ++ r.trace, r.panicked, r.created⟩

/-- Go `func handleConf(cfg *config)`. Lines 66-71: `port` starts as 9200 and
`if cfg.Port == nil { port = *cfg.Port }` dereferences the pointer exactly when
it is `nil`, which panics before anything else happens; a present port is never
read. -/
def handleConf (B : Backend) (cfg : config) (s : State) : ConfResult :=
  match cfg.Port with
  | none => ⟨s, [], true, none⟩
  | some _ =>
    let port : Nat := 9200
    if cfg.Username = none ∧ cfg.Token = none then
      ⟨s, [Event.log "Missing username or token", Event.writeConfErr], false, none⟩
    else if cfg.Username ≠ none ∧ cfg.Token ≠ none then
      ⟨s, [Event.log "Use a username or token, not both", Event.writeConfErr], false, none⟩
    else if cfg.Username ≠ none ∧ cfg.Password = none then
      ⟨s, [Event.log "Missing password for the username", Event.writeConfErr], false, none⟩
    else
      reconnect B cfg port s

/-- Go `func onResponse(pkg *timod.Pkg, res []byte, err error)`. -/
def onResponse (T : Timod) (pkg : Pkg) (res : Bytes) (err : Option GoError) : List Event :=
  match err with
  | some (GoError.ti code msg) => [Event.writeEx pkg.Pid (T.Ex code) msg]
  | some (GoError.other msg) =>
    [Event.writeEx pkg.Pid T.ExBadData ("Unexpected error: " ++ msg)]
  | none => [Event.writeResponseRaw pkg.Pid res]

/-- What a call of `onModuleReq` leaves behind. -/
structure ReqResult where
  state : State
  trace : List Event
  deriving DecidableEq

/-- Go `func onModuleReq(pkg *timod.Pkg)`. `unmarshal` is `msgpack.Unmarshal` into
a `request`: the decoded request or the decoder's error text. The function
never assigns the package-level `conn`. -/
def onModuleReq (T : Timod) (B : Backend) (unmarshal : Bytes → Except String request)
    (pkg : Pkg) (s : State) : ReqResult :=
  match s.conn with
  | none =>
    ⟨s, [Event.writeEx pkg.Pid T.ExCancelled
      "No connection, make sure you used set_module_conf() to initialze the module"]⟩
  | some c =>
    match unmarshal pkg.Data with
    | Except.error err =>
      ⟨s, [Event.writeEx pkg.Pid T.ExBadData ("Invalid request: " ++ err)]⟩
    | Except.ok req =>
      if req.Code = none ∧ req.Name = none then
        ⟨s, [Event.writeEx pkg.Pid T.ExBadData "Missing code (for QUERY) or name (for RUN)"]⟩
      else if req.Code ≠ none ∧ req.Name ≠ none then
        ⟨s, [Event.writeEx pkg.Pid T.ExBadData
          "Both code (for QUERY) and name (for RUN) are set"]⟩
      else
        match req.Code with
        | some code =>
          if req.Args ≠ none then
            ⟨s, [Event.writeEx pkg.Pid T.ExBadData "Found `args`, use `vars` for QUERY"]⟩
          else
            let r := B.QueryRaw c req.Scope code req.Vars
            ⟨s, Event.queryRaw c req.Scope code req.Vars :: onResponse T pkg r.1 r.2⟩
        | none =>
          match req.Name with
          | some name =>
            if req.Vars ≠ none then
              ⟨s, [Event.writeEx pkg.Pid T.ExBadData "Found `vars`, use `args` for RUN"]⟩
            else
              let r := B.RunRaw c req.Scope name req.Args
              ⟨s, Event.runRaw c req.Scope name req.Args :: onResponse T pkg r.1 r.2⟩
          | none =>
            ⟨s, [Event.writeEx pkg.Pid T.ExCancelled "Code should not be reached"]⟩

/-! ## Reading a trace -/

/-- Calls on the backend client that go over the network. -/
def Event.isBackendCall : Event → Bool
  | Event.connect _ => true
  | Event.authToken _ _ => true
  | Event.authPassword _ _ _ => true
  | Event.close _ => true
  | Event.queryRaw _ _ _ _ => true
  | Event.runRaw _ _ _ _ => true
  | _ => false

/-- A `QueryRaw` call. -/
def Event.isQuery : Event → Bool
  | Event.queryRaw _ _ _ _ => true
  | _ => false

/-- A `RunRaw` call. -/
def Event.isRun : Event → Bool
  | Event.runRaw _ _ _ _ => true
  | _ => false

/-- A reply to a request: `timod.WriteEx` or `timod.WriteResponseRaw`. -/
def Event.isReply : Event → Bool
  | Event.writeEx _ _ _ => true
  | Event.writeResponseRaw _ _ => true
  | _ => false

/-- The correlation identifier a reply is tagged with. -/
def Event.replyPid : Event → Option Nat
  | Event.writeEx pid _ _ => some pid
  | Event.writeResponseRaw pid _ => some pid
  | _ => none

/-- Number of backend calls in a trace. -/
def backendCalls (t : List Event) : Nat := (t.filter Event.isBackendCall).length

/-- Number of `QueryRaw` calls in a trace. -/
def queryCalls (t : List Event) : Nat := (t.filter Event.isQuery).length

/-- Number of `RunRaw` calls in a trace. -/
def runCalls (t : List Event) : Nat := (t.filter Event.isRun).length

/-- The replies of a trace, in order. -/
def replies (t : List Event) : List Event := t.filter Event.isReply

/-- The four shapes of a decoded request that the specification calls invalid:
code and name both absent, both present, code together with args, name together
with vars. -/
def invalidShape (req : request) : Prop :=
  (req.Code = none ∧ req.Name = none) ∨ (req.Code ≠ none ∧ req.Name ≠ none) ∨
  (req.Code ≠ none ∧ req.Args ≠ none) ∨ (req.Name ≠ none ∧ req.Vars ≠ none)

instance (req : request) : Decidable (invalidShape req) := by
  unfold invalidShape; infer_instance

/-- The three ways the credentials of a configuration can be invalid. -/
def invalidCredentials (cfg : config) : Prop :=
  (cfg.Username = none ∧ cfg.Token = none) ∨ (cfg.Username ≠ none ∧ cfg.Token ≠ none) ∨
  (cfg.Username ≠ none ∧ cfg.Password = none)

instance (cfg : config) : Decidable (invalidCredentials cfg) := by
  unfold invalidCredentials; infer_instance

/-- A connection that is open and has completed `Connect` and authentication. -/
def Conn.ready (c : Conn) : Prop :=
  c.connected = true ∧ c.authenticated = true ∧ c.closed = false

/-- The slot is empty or holds a ready connection. -/
def slotOk (s : State) : Prop :=
  s.conn = none ∨ ∃ c, s.conn = some c ∧ c.ready

/-! ## Runs of the module -/

/-- One package handled by the protocol loop: a configuration handed to
`handleConf` or a request handed to `onModuleReq`, each with the outcomes the
outside world produces during that step. -/
inductive Step where
  | conf (B : Backend) (cfg : config)
  | req (T : Timod) (B : Backend) (unmarshal : Bytes → Except String request) (pkg : Pkg)

/-- The package-level state after handling the steps in order, starting in `s`.
A panic ends the process: the remaining steps are not run. -/
def run : List Step → State → State
  | [], s => s
  | Step.conf B cfg :: rest, s =>
    let r := handleConf B cfg s
    if r.panicked then r.state else run rest r.state
  | Step.req T B unmarshal pkg :: rest, s =>
    run rest (onModuleReq T B unmarshal pkg s).state

/-! ## Concrete inputs -/

/-- A backend on which every call succeeds; queries and procedures return the
bytes `[1, 2, 3]`. -/
def okBackend : Backend :=
  { Connect := fun _ => none, AuthToken := fun _ _ => none, AuthPassword := fun _ _ _ => none,
    QueryRaw := fun _ _ _ _ => ([1, 2, 3], none), RunRaw := fun _ _ _ _ => ([1, 2, 3], none) }

/-- A backend that cannot be dialled. -/
def downBackend : Backend :=
  { okBackend with Connect := fun _ => some "connection refused" }

/-- A backend that rejects every credential. -/
def denyBackend : Backend :=
  { okBackend with AuthToken := fun _ _ => some "invalid token",
                   AuthPassword := fun _ _ _ => some "invalid username or password" }

/-- An instance of the `timod` names, used to evaluate the definitions. -/
def demoTimod : Timod := { ExBadData := -53, ExCancelled := -64, exBits := 8 }

/-- Configuration `{host: "db", port: 9200, username: "admin", password: "x"}`. -/
def cfgPassword : config :=
  { Username := some "admin", Password := some "x", Token := none, Host := "db",
    Port := some 9200, UseSSL := none, SkipVerify := none, Timeout := none, Nodes := [] }

/-- Configuration `{host: "db", port: 1234, token: "t", nodes: [{host: "n1", port: 4321}]}`. -/
def cfgPorts : config :=
  { Username := none, Password := none, Token := some "t", Host := "db",
    Port := some 1234, UseSSL := none, SkipVerify := none, Timeout := none,
    Nodes := [{ Host := "n1", Port := some 4321 }] }

/-- Configuration `{host: "db", token: "t"}`: no port. -/
def cfgNoPort : config :=
  { Username := none, Password := none, Token := some "t", Host := "db",
    Port := none, UseSSL := none, SkipVerify := none, Timeout := none, Nodes := [] }

/-- Configuration `{host: "db"}`: no credentials and no port. -/
def cfgEmpty : config :=
  { Username := none, Password := none, Token := none, Host := "db",
    Port := none, UseSSL := none, SkipVerify := none, Timeout := none, Nodes := [] }

/-- Configuration `{host: "db", port: 9200, username: "admin", token: "t"}`:
both a username and a token. -/
def cfgBoth : config :=
  { Username := some "admin", Password := none, Token := some "t", Host := "db",
    Port := some 9200, UseSSL := none, SkipVerify := none, Timeout := none, Nodes := [] }

/-- The connection `handleConf` builds for `cfgPassword`, before `Connect`. -/
def builtConn : Conn :=
  { Host := "db", Port := 9200, Tls := none, DefaultTimeout := 10 * second, Nodes := [],
    connected := false, authenticated := false, closed := false }

/-- A connection to `old:9200` that is dialled, authenticated and open. -/
def activeConn : Conn :=
  { Host := "old", Port := 9200, Tls := none, DefaultTimeout := 10 * second, Nodes := [],
    connected := true, authenticated := true, closed := false }

/-- A state whose slot holds `activeConn`. -/
def activeState : State := ⟨some activeConn⟩

/-- Request `{scope: "//s", code: ".id()"}`. -/
def reqQuery : request :=
  { Scope := "//s", Code := some ".id()", Name := none, Vars := none, Args := none }

/-- Request `{scope: "//s", name: "proc1", vars: {"a": 1}}`. -/
def reqRunVars : request :=
  { Scope := "//s", Code := none, Name := some "proc1", Vars := some [("a", ⟨[1]⟩)],
    Args := none }

/-- Request `{scope: "//s", name: "proc1", args: [1]}`. -/
def reqRun : request :=
  { Scope := "//s", Code := none, Name := some "proc1", Vars := none, Args := some ⟨[145, 1]⟩ }

/-- A request package with correlation identifier 7. -/
def pkg7 : Pkg := { Pid := 7, Tp := 0, Data := [] }


/-! ## Helper lemmas -/

theorem onResponse_backendCalls (T : Timod) (pkg : Pkg) (res : Bytes) (err : Option GoError) :
    backendCalls (onResponse T pkg res err) = 0 ∧ queryCalls (onResponse T pkg res err) = 0 ∧
      runCalls (onResponse T pkg res err) = 0 := by
  rcases err with _ | ⟨code, msg⟩ | msg <;>
    simp [onResponse, backendCalls, queryCalls, runCalls, Event.isBackendCall, Event.isQuery,
      Event.isRun]

theorem onResponse_replies (T : Timod) (pkg : Pkg) (res : Bytes) (err : Option GoError) :
    ∃ e, onResponse T pkg res err = [e] ∧ e.isReply = true ∧ e.replyPid = some pkg.Pid := by
  rcases err with _ | ⟨code, msg⟩ | msg <;>
    simp [onResponse, Event.isReply, Event.replyPid]

theorem onModuleReq_state (T : Timod) (B : Backend) (unmarshal : Bytes → Except String request)
    (pkg : Pkg) (s : State) : (onModuleReq T B unmarshal pkg s).state = s := by
  unfold onModuleReq
  repeat' split
  all_goals rfl

theorem dialAndAuth_state (B : Backend) (cfg : config) (s : State) (c : Conn) :
    (dialAndAuth B cfg s c).state = s := by
  unfold dialAndAuth
  repeat' (first | rfl | split | dsimp only)

theorem reconnect_state (B : Backend) (cfg : config) (port : Nat) (s : State) :
    (reconnect B cfg port s).state = ⟨s.conn.map Conn.Close⟩ := by
  unfold reconnect
  simp only
  split
  · rfl
  · simp [dialAndAuth_state]

/-- The slot after `handleConf` is the slot before it, or the same connection
after `Close`: no path stores a new connection in it. -/
theorem handleConf_state (B : Backend) (cfg : config) (s : State) :
    (handleConf B cfg s).state = s ∨
      (handleConf B cfg s).state = ⟨s.conn.map Conn.Close⟩ := by
  unfold handleConf
  repeat' split
  all_goals first
    | exact Or.inl rfl
    | exact Or.inr (reconnect_state B cfg _ s)

theorem handleConf_conn_none (B : Backend) (cfg : config) (s : State) (h : s.conn = none) :
    (handleConf B cfg s).state.conn = none := by
  rcases handleConf_state B cfg s with h1 | h1 <;> rw [h1] <;> simp [h]

theorem run_conn_none (steps : List Step) :
    ∀ s : State, s.conn = none → (run steps s).conn = none := by
  induction steps with
  | nil => intro s h; exact h
  | cons st rest ih =>
    intro s h
    cases st with
    | conf B cfg =>
      simp only [run]
      split
      · exact handleConf_conn_none B cfg s h
      · exact ih _ (handleConf_conn_none B cfg s h)
    | req T B unmarshal pkg =>
      simp only [run]
      apply ih
      rw [onModuleReq_state]
      exact h

/-! ## Request routing -/

/-- C5: when the current-connection slot is empty, `onModuleReq` answers every
package, whatever its payload decodes to, with one exception of kind Cancelled
tagged with the package's Pid, and makes no backend call. -/
theorem onModuleReq_no_connection_cancelled (T : Timod) (B : Backend)
    (unmarshal : Bytes → Except String request) (pkg : Pkg) (s : State)
    (h : s.conn = none) :
    (∃ msg, (onModuleReq T B unmarshal pkg s).trace =
        [Event.writeEx pkg.Pid T.ExCancelled msg]) ∧
      backendCalls (onModuleReq T B unmarshal pkg s).trace = 0 := by
  unfold onModuleReq
  rw [h]
  exact ⟨⟨_, rfl⟩, rfl⟩

theorem onModuleReq_no_connection_cancelled_witness :
    State.init.conn = none ∧
      ((∃ msg, (onModuleReq demoTimod okBackend (fun _ => Except.ok reqQuery) pkg7
          State.init).trace = [Event.writeEx pkg7.Pid demoTimod.ExCancelled msg]) ∧
        backendCalls (onModuleReq demoTimod okBackend (fun _ => Except.ok reqQuery) pkg7
          State.init).trace = 0) :=
  ⟨rfl, onModuleReq_no_connection_cancelled demoTimod okBackend
    (fun _ => Except.ok reqQuery) pkg7 State.init rfl⟩

/-- C6: for a request that decodes while a connection is current, `onModuleReq`
replies with a BadData exception and no backend call exactly when the request
has one of the four invalid shapes; in every other case it makes exactly one
backend call. -/
theorem onModuleReq_badData_iff_invalidShape (T : Timod) (B : Backend)
    (unmarshal : Bytes → Except String request) (pkg : Pkg) (s : State) (c : Conn)
    (req : request) (hc : s.conn = some c) (hd : unmarshal pkg.Data = Except.ok req) :
    (((∃ msg, (onModuleReq T B unmarshal pkg s).trace =
          [Event.writeEx pkg.Pid T.ExBadData msg]) ∧
        backendCalls (onModuleReq T B unmarshal pkg s).trace = 0) ↔ invalidShape req) ∧
      (¬ invalidShape req → backendCalls (onModuleReq T B unmarshal pkg s).trace = 1) := by
  have hq := fun r e => (onResponse_backendCalls T pkg r e).1
  obtain ⟨scope, code, name, vars, args⟩ := req
  unfold onModuleReq
  rw [hc]
  simp only [hd]
  unfold backendCalls at hq ⊢
  rcases code with _ | code <;> rcases name with _ | name <;> rcases vars with _ | vars <;>
    rcases args with _ | args <;>
    simp [invalidShape, Event.isBackendCall, hq]

theorem onModuleReq_badData_iff_invalidShape_witness :
    activeState.conn = some activeConn ∧
      (fun _ => Except.ok reqRunVars : Bytes → Except String request) pkg7.Data =
        Except.ok reqRunVars ∧
      ((((∃ msg, (onModuleReq demoTimod okBackend (fun _ => Except.ok reqRunVars) pkg7
            activeState).trace = [Event.writeEx pkg7.Pid demoTimod.ExBadData msg]) ∧
          backendCalls (onModuleReq demoTimod okBackend (fun _ => Except.ok reqRunVars) pkg7
            activeState).trace = 0) ↔ invalidShape reqRunVars) ∧
        (¬ invalidShape reqRunVars →
          backendCalls (onModuleReq demoTimod okBackend (fun _ => Except.ok reqRunVars) pkg7
            activeState).trace = 1)) :=
  ⟨rfl, rfl, onModuleReq_badData_iff_invalidShape demoTimod okBackend
    (fun _ => Except.ok reqRunVars) pkg7 activeState activeConn reqRunVars rfl rfl⟩

/-- C7: for a request that passes validation while connection `c` is current:
with `code` present the trace is one `QueryRaw` call on `c` with
(scope, code, vars) followed by `onResponse` applied to exactly the bytes and
error that call returned, and there is no `RunRaw` call; with `name` present it
is one `RunRaw` call on `c` with (scope, name, args) followed by `onResponse`
applied to that call's result, and there is no `QueryRaw` call. -/
theorem onModuleReq_dispatch (T : Timod) (B : Backend)
    (unmarshal : Bytes → Except String request) (pkg : Pkg) (s : State) (c : Conn)
    (req : request) (hc : s.conn = some c) (hd : unmarshal pkg.Data = Except.ok req)
    (hv : ¬ invalidShape req) :
    (∀ code, req.Code = some code →
        (onModuleReq T B unmarshal pkg s).trace =
            Event.queryRaw c req.Scope code req.Vars ::
              onResponse T pkg (B.QueryRaw c req.Scope code req.Vars).1
                (B.QueryRaw c req.Scope code req.Vars).2 ∧
          queryCalls (onModuleReq T B unmarshal pkg s).trace = 1 ∧
          runCalls (onModuleReq T B unmarshal pkg s).trace = 0) ∧
      (∀ name, req.Name = some name →
        (onModuleReq T B unmarshal pkg s).trace =
            Event.runRaw c req.Scope name req.Args ::
              onResponse T pkg (B.RunRaw c req.Scope name req.Args).1
                (B.RunRaw c req.Scope name req.Args).2 ∧
          runCalls (onModuleReq T B unmarshal pkg s).trace = 1 ∧
          queryCalls (onModuleReq T B unmarshal pkg s).trace = 0) := by
  have hq := fun r e => (onResponse_backendCalls T pkg r e).2.1
  have hr := fun r e => (onResponse_backendCalls T pkg r e).2.2
  obtain ⟨scope, code, name, vars, args⟩ := req
  unfold onModuleReq
  rw [hc]
  simp only [hd]
  unfold queryCalls at hq ⊢
  unfold runCalls at hr ⊢
  rcases code with _ | code <;> rcases name with _ | name <;> rcases vars with _ | vars <;>
    rcases args with _ | args <;>
    simp [invalidShape] at hv <;>
    simp [Event.isQuery, Event.isRun, hq, hr]

theorem onModuleReq_dispatch_witness :
    activeState.conn = some activeConn ∧ ¬ invalidShape reqQuery ∧
      ((∀ code, reqQuery.Code = some code →
          (onModuleReq demoTimod okBackend (fun _ => Except.ok reqQuery) pkg7 activeState).trace =
              Event.queryRaw activeConn reqQuery.Scope code reqQuery.Vars ::
                onResponse demoTimod pkg7
                  (okBackend.QueryRaw activeConn reqQuery.Scope code reqQuery.Vars).1
                  (okBackend.QueryRaw activeConn reqQuery.Scope code reqQuery.Vars).2 ∧
            queryCalls (onModuleReq demoTimod okBackend (fun _ => Except.ok reqQuery) pkg7
              activeState).trace = 1 ∧
            runCalls (onModuleReq demoTimod okBackend (fun _ => Except.ok reqQuery) pkg7
              activeState).trace = 0) ∧
        (∀ name, reqQuery.Name = some name →
          (onModuleReq demoTimod okBackend (fun _ => Except.ok reqQuery) pkg7 activeState).trace =
              Event.runRaw activeConn reqQuery.Scope name reqQuery.Args ::
                onResponse demoTimod pkg7
                  (okBackend.RunRaw activeConn reqQuery.Scope name reqQuery.Args).1
                  (okBackend.RunRaw activeConn reqQuery.Scope name reqQuery.Args).2 ∧
            runCalls (onModuleReq demoTimod okBackend (fun _ => Except.ok reqQuery) pkg7
              activeState).trace = 1 ∧
            queryCalls (onModuleReq demoTimod okBackend (fun _ => Except.ok reqQuery) pkg7
              activeState).trace = 0)) :=
  ⟨rfl, by decide, onModuleReq_dispatch demoTimod okBackend (fun _ => Except.ok reqQuery) pkg7
    activeState activeConn reqQuery rfl rfl (by decide)⟩

/-! ## Response translation -/

theorem toSigned_of_inRange (w : Nat) (c : Int) (hw : 0 < w)
    (hlo : -(2 ^ (w - 1) : Int) ≤ c) (hhi : c < 2 ^ (w - 1)) : toSigned w c = c := by
  unfold toSigned
  have h2 : (2 : Int) ^ w = 2 * 2 ^ (w - 1) := by
    obtain ⟨k, rfl⟩ : ∃ k, w = k + 1 := ⟨w - 1, by omega⟩
    simp [pow_succ, mul_comm]
  rw [h2, Int.emod_eq_of_lt (by linarith) (by linarith)]
  ring

/-- C8: `onResponse` writes, for bytes `b` returned without error, one raw
success response carrying exactly `b`; and for a backend error with code `C`
and message `m`, one exception whose kind is the conversion `timod.Ex(C)` and
whose detail is `m`. The conversion keeps the numeric value of every code that
fits the type `timod.Ex`, so distinct codes give distinct kinds. -/
theorem onResponse_transparent (T : Timod) (pkg : Pkg) :
    (∀ b, onResponse T pkg b none = [Event.writeResponseRaw pkg.Pid b]) ∧
      (∀ b C m, onResponse T pkg b (some (GoError.ti C m)) =
        [Event.writeEx pkg.Pid (T.Ex C) m]) ∧
      (0 < T.exBits → ∀ C : Int, -(2 ^ (T.exBits - 1) : Int) ≤ C → C < 2 ^ (T.exBits - 1) →
        T.Ex C = C) :=
  ⟨fun _ => rfl, fun _ _ _ => rfl, fun hw C hlo hhi => toSigned_of_inRange _ C hw hlo hhi⟩

theorem onResponse_transparent_witness :
    onResponse demoTimod pkg7 [1, 2, 3] none = [Event.writeResponseRaw 7 [1, 2, 3]] ∧
      onResponse demoTimod pkg7 [] (some (GoError.ti (-54) "thing not found")) =
        [Event.writeEx 7 (-54) "thing not found"] ∧
      demoTimod.Ex (-54) = -54 :=
  ⟨(onResponse_transparent demoTimod pkg7).1 [1, 2, 3],
    by
      rw [(onResponse_transparent demoTimod pkg7).2.1 []]
      decide,
    (onResponse_transparent demoTimod pkg7).2.2 (by decide) (-54) (by decide) (by decide)⟩

/-- C9: for every state of the slot, every package, every decoder result and
every backend outcome, `onModuleReq` writes exactly one reply, and that reply
carries the Pid of the package. -/
theorem onModuleReq_exactly_one_reply (T : Timod) (B : Backend)
    (unmarshal : Bytes → Except String request) (pkg : Pkg) (s : State) :
    ∃ e, replies (onModuleReq T B unmarshal pkg s).trace = [e] ∧ e.isReply = true ∧
      e.replyPid = some pkg.Pid := by
  have hr : ∀ r e, ∃ x, replies (onResponse T pkg r e) = [x] ∧ x.isReply = true ∧
      x.replyPid = some pkg.Pid := by
    intro r e
    obtain ⟨x, hx, hx1, hx2⟩ := onResponse_replies T pkg r e
    exact ⟨x, by simp [hx, replies, hx1], hx1, hx2⟩
  unfold onModuleReq
  repeat' (first | split | dsimp only)
  all_goals first
    | exact ⟨_, rfl, rfl, rfl⟩
    | (simp only [replies, List.filter, Event.isReply]; exact hr _ _)

/-! ## The slot along a run -/

/-- C10: in every state the module reaches from the initial state through any
sequence of `handleConf` and `onModuleReq` steps with arbitrary backend
outcomes, the slot is empty or holds an open, dialled and authenticated
connection; and no `onModuleReq` step, in any state, changes the slot. -/
theorem run_slotOk (steps : List Step) :
    slotOk (run steps State.init) ∧
      ∀ (T : Timod) (B : Backend) (unmarshal : Bytes → Except String request) (pkg : Pkg)
        (s : State), (onModuleReq T B unmarshal pkg s).state.conn = s.conn :=
  ⟨Or.inl (run_conn_none steps State.init rfl),
    fun T B unmarshal pkg s => by rw [onModuleReq_state]⟩

/-! ## Reconfiguration -/

/-- C1: evaluation of `handleConf` on `{host: "db", port: 9200, username:
"admin", password: "x"}` with an empty slot and a backend on which `Connect` and
`AuthPassword` succeed. ConfigOK is written and the local variable holds the
dialled and authenticated connection, but the package-level slot is still
empty; started with an active connection in the slot, the slot afterwards
holds that old connection, closed. -/
theorem handleConf_success_slot_not_updated :
    (handleConf okBackend cfgPassword State.init).trace =
        [Event.newConn "db" 9200 none, Event.connect builtConn,
          Event.authPassword { builtConn with connected := true } "admin" "x",
          Event.writeConfOk] ∧
      (handleConf okBackend cfgPassword State.init).created =
        some { builtConn with connected := true, authenticated := true } ∧
      (handleConf okBackend cfgPassword State.init).state.conn = none ∧
      (handleConf okBackend cfgPassword activeState).state.conn =
        some { activeConn with closed := true } := by
  decide

/-- C2: evaluation of `handleConf` on a configuration with `port: 1234` and a
node with `port: 4321`: both the primary host and the node are used with port
9200. On a configuration without `port` the function panics before it does
anything, and on a node without `port` it panics inside the loop. -/
theorem handleConf_ports_inverted :
    (handleConf okBackend cfgPorts State.init).trace.take 2 =
        [Event.newConn "db" 9200 none, Event.addNode "n1" 9200] ∧
      (handleConf okBackend cfgPorts State.init).created =
        some { Host := "db", Port := 9200, Tls := none, DefaultTimeout := 10 * second,
               Nodes := [("n1", 9200)], connected := true, authenticated := true,
               closed := false } ∧
      (handleConf okBackend cfgNoPort State.init).panicked = true ∧
      (handleConf okBackend cfgNoPort State.init).trace = [] ∧
      (handleConf okBackend { cfgPorts with Nodes := [{ Host := "n1", Port := none }] }
        State.init).panicked = true ∧
      (handleConf okBackend { cfgPorts with Nodes := [{ Host := "n1", Port := none }] }
        State.init).trace = [Event.newConn "db" 9200 none] := by
  decide

/-- C3: evaluation of `handleConf` on `{host: "db"}` (no credentials, no port)
with an active connection in the slot: the function panics on the port before
the credential checks, and ConfigError is never written. -/
theorem handleConf_invalid_credentials_no_port_panics :
    invalidCredentials cfgEmpty ∧
      (handleConf okBackend cfgEmpty activeState).panicked = true ∧
      (handleConf okBackend cfgEmpty activeState).trace = [] ∧
      Event.writeConfErr ∉ (handleConf okBackend cfgEmpty activeState).trace := by
  decide

/-- With a port present, invalid credentials give what the specification asks
for: one log line and one ConfigError, nothing else, and the state is returned
untouched. -/
theorem handleConf_invalid_credentials_of_port (B : Backend) (cfg : config) (s : State)
    (p : Nat) (hp : cfg.Port = some p) (hi : invalidCredentials cfg) :
    (∃ msg, (handleConf B cfg s).trace = [Event.log msg, Event.writeConfErr]) ∧
      (handleConf B cfg s).state = s ∧ (handleConf B cfg s).panicked = false ∧
      (handleConf B cfg s).created = none := by
  unfold handleConf
  rw [hp]
  unfold invalidCredentials at hi
  dsimp only
  split
  · exact ⟨⟨_, rfl⟩, rfl, rfl, rfl⟩
  · split
    · exact ⟨⟨_, rfl⟩, rfl, rfl, rfl⟩
    · split
      · exact ⟨⟨_, rfl⟩, rfl, rfl, rfl⟩
      · tauto

theorem handleConf_invalid_credentials_of_port_witness :
    cfgBoth.Port = some 9200 ∧ invalidCredentials cfgBoth ∧
      ((∃ msg, (handleConf okBackend cfgBoth activeState).trace =
          [Event.log msg, Event.writeConfErr]) ∧
        (handleConf okBackend cfgBoth activeState).state = activeState ∧
        (handleConf okBackend cfgBoth activeState).panicked = false ∧
        (handleConf okBackend cfgBoth activeState).created = none) :=
  ⟨rfl, by decide,
    handleConf_invalid_credentials_of_port okBackend cfgBoth activeState 9200 rfl (by decide)⟩

/-- C4: evaluation of `handleConf` on a valid configuration with an active
connection in the slot. When `Connect` fails, ConfigError is written, the new
connection is dropped without `Close`, and the slot still holds the old
connection, now closed. When `AuthPassword` fails, the new connection is closed
and ConfigError is written, and again the slot holds the closed old
connection. -/
theorem handleConf_failure_slot_not_cleared :
    (handleConf downBackend cfgPassword activeState).trace =
        [Event.close activeConn, Event.newConn "db" 9200 none, Event.connect builtConn,
          Event.log "connection refused", Event.writeConfErr] ∧
      (handleConf downBackend cfgPassword activeState).state.conn =
        some { activeConn with closed := true } ∧
      (handleConf denyBackend cfgPassword activeState).trace =
        [Event.close activeConn, Event.newConn "db" 9200 none, Event.connect builtConn,
          Event.authPassword { builtConn with connected := true } "admin" "x",
          Event.close { builtConn with connected := true },
          Event.log "invalid username or password", Event.writeConfErr] ∧
      (handleConf denyBackend cfgPassword activeState).state.conn =
        some { activeConn with closed := true } := by
  decide

end ThingsDBModule
